import Mathlib

/-!
Verification of the `M5UnitML` command dispatcher
(`src/+arduinoioaddons/+M5Stack/src/M5UnitML.h`).

The dispatcher `M5UnitML::commandHandler(byte cmdID, byte* dataIn,
unsigned int payloadSize)` is embedded as a pure function from a dispatcher
state (the lazily created `M5UnitSynth* synth` handle), a command id and a
payload to a new state, the list of calls made on the synthesizer device,
and the response bytes passed to `sendResponseMsg`.  The handle is modelled
as an `Option Nat` carrying an allocation identifier so that reusing an
existing handle is distinguishable from allocating a fresh one.
-/

namespace M5UnitML

/-- A `byte` of the Arduino API (`uint8_t`). -/
abbrev Byte := Fin 256

/-! Command IDs, from the `#define` block of `M5UnitML.h`. -/

abbrev CMD_BEGIN : Nat := 0x01
abbrev CMD_SET_INSTRUMENT : Nat := 0x02
abbrev CMD_SET_NOTE_ON : Nat := 0x03
abbrev CMD_SET_NOTE_OFF : Nat := 0x04
abbrev CMD_SET_ALL_NOTE_OFF : Nat := 0x05
abbrev CMD_SET_PITCH_BEND : Nat := 0x06
abbrev CMD_SET_PITCH_BEND_RANGE : Nat := 0x07
abbrev CMD_SET_MASTER_VOLUME : Nat := 0x08
abbrev CMD_SET_CHANNEL_VOLUME : Nat := 0x09
abbrev CMD_SET_EXPRESSION : Nat := 0x0A
abbrev CMD_SET_REVERB : Nat := 0x0B
abbrev CMD_SET_CHORUS : Nat := 0x0C
abbrev CMD_SET_PAN : Nat := 0x0D
abbrev CMD_SET_EQUALIZER : Nat := 0x0E
abbrev CMD_SET_TUNING : Nat := 0x0F
abbrev CMD_SET_VIBRATE : Nat := 0x10
abbrev CMD_SET_TVF : Nat := 0x11
abbrev CMD_SET_ENVELOPE : Nat := 0x12
abbrev CMD_SET_MOD_WHEEL : Nat := 0x13
abbrev CMD_SET_ALL_DRUMS : Nat := 0x14
abbrev CMD_RESET : Nat := 0x15

/-- One call made on the external `M5UnitSynth` device; constructors follow
the `synth->...` operations invoked by `commandHandler`.  `begin` records the
baud rate and the RX/TX pins passed to `synth->begin(&Serial2, baud, rxPin,
txPin)`. -/
inductive DeviceCall where
  | begin (baud : Nat) (rxPin txPin : Byte)
  | setInstrument (bank channel value : Byte)
  | setNoteOn (channel pitch velocity : Byte)
  | setNoteOff (channel pitch velocity : Byte)
  | setAllNotesOff (channel : Byte)
  | setPitchBend (channel : Byte) (bend : Int)
  | setPitchBendRange (channel value : Byte)
  | setMasterVolume (level : Byte)
  | setVolume (channel level : Byte)
  | setExpression (channel expression : Byte)
  | setReverb (channel program level feedback : Byte)
  | setChorus (channel program level feedback chorusDelay : Byte)
  | setPan (channel value : Byte)
  | setEqualizer (channel lowband medlowband medhighband highband
      lowfreq medlowfreq medhighfreq highfreq : Byte)
  | setTuning (channel fine coarse : Byte)
  | setVibrate (channel rate depth vdelay : Byte)
  | setTvf (channel cutoff resonance : Byte)
  | setEnvelope (channel attack decay rel : Byte)
  | setModWheel (channel pitch tvtcutoff amplitude rate pitchdepth
      tvfdepth tvadepth : Byte)
  | setAllInstrumentDrums
  | reset
  deriving DecidableEq, Repr

/-- The dispatcher's persistent state: the `M5UnitSynth* synth` member.
`none` models the null pointer; `some h` models a live handle with
allocation identifier `h`, and `nextHandle` is the identifier a fresh
`new M5UnitSynth()` would receive. -/
structure DispatcherState where
  synth : Option Nat
  nextHandle : Nat
  deriving DecidableEq, Repr

/-- The state after the constructor, which sets `synth = nullptr`. -/
def initialState : DispatcherState := ⟨none, 0⟩

/-- The observable outcome of one `commandHandler` invocation: the updated
state, the calls made on the device, and the `responseSize` leading bytes of
`responseData` handed to `sendResponseMsg`. -/
structure DispatchResult where
  state : DispatcherState
  calls : List DeviceCall
  response : List Nat
  deriving DecidableEq, Repr

/-- The C conversion of a nonnegative integer value to `int16_t`
(two's-complement truncation), used for the pitch-bend value. -/
def toInt16 (v : Nat) : Int :=
  if v % 65536 < 32768 then ((v % 65536 : Nat) : Int)
  else ((v % 65536 : Nat) : Int) - 65536

/-- Embedding of `M5UnitML::commandHandler`.  Each branch mirrors one
`case` of the `switch (cmdID)`: the guard `synth != nullptr && payloadSize >= n`
becomes `st.synth.isSome ∧ payloadSize ≥ n`, a guarded branch performs the
device call and sets `responseData[0] = 1`, the else branch sets
`responseData[0] = 0`, and every branch sets `responseSize = 1`. -/
def commandHandler (st : DispatcherState) (cmdID : Nat) (dataIn : List Byte) :
    DispatchResult :=
  let payloadSize := dataIn.length
  if cmdID = CMD_BEGIN then
    let rxPin : Byte := if payloadSize > 0 then dataIn.getD 0 0 else 16
    let txPin : Byte := if payloadSize > 1 then dataIn.getD 1 0 else 17
    let baud : Nat :=
      if payloadSize > 3 then (dataIn.getD 2 0).val ||| ((dataIn.getD 3 0).val <<< 8)
      else 31250
    let st' : DispatcherState :=
      if st.synth = none then ⟨some st.nextHandle, st.nextHandle + 1⟩ else st
    ⟨st', [.begin baud rxPin txPin], [1]⟩
  else if cmdID = CMD_SET_INSTRUMENT then
    if st.synth.isSome ∧ payloadSize ≥ 3 then
      ⟨st, [.setInstrument (dataIn.getD 0 0) (dataIn.getD 1 0) (dataIn.getD 2 0)], [1]⟩
    else ⟨st, [], [0]⟩
  else if cmdID = CMD_SET_NOTE_ON then
    if st.synth.isSome ∧ payloadSize ≥ 3 then
      ⟨st, [.setNoteOn (dataIn.getD 0 0) (dataIn.getD 1 0) (dataIn.getD 2 0)], [1]⟩
    else ⟨st, [], [0]⟩
  else if cmdID = CMD_SET_NOTE_OFF then
    if st.synth.isSome ∧ payloadSize ≥ 3 then
      ⟨st, [.setNoteOff (dataIn.getD 0 0) (dataIn.getD 1 0) (dataIn.getD 2 0)], [1]⟩
    else ⟨st, [], [0]⟩
  else if cmdID = CMD_SET_ALL_NOTE_OFF then
    if st.synth.isSome ∧ payloadSize ≥ 1 then
      ⟨st, [.setAllNotesOff (dataIn.getD 0 0)], [1]⟩
    else ⟨st, [], [0]⟩
  else if cmdID = CMD_SET_PITCH_BEND then
    if st.synth.isSome ∧ payloadSize ≥ 3 then
      let bendValue : Int := toInt16 ((dataIn.getD 1 0).val ||| ((dataIn.getD 2 0).val <<< 8))
      ⟨st, [.setPitchBend (dataIn.getD 0 0) bendValue], [1]⟩
    else ⟨st, [], [0]⟩
  else if cmdID = CMD_SET_PITCH_BEND_RANGE then
    if st.synth.isSome ∧ payloadSize ≥ 2 then
      ⟨st, [.setPitchBendRange (dataIn.getD 0 0) (dataIn.getD 1 0)], [1]⟩
    else ⟨st, [], [0]⟩
  else if cmdID = CMD_SET_MASTER_VOLUME then
    if st.synth.isSome ∧ payloadSize ≥ 1 then
      ⟨st, [.setMasterVolume (dataIn.getD 0 0)], [1]⟩
    else ⟨st, [], [0]⟩
  else if cmdID = CMD_SET_CHANNEL_VOLUME then
    if st.synth.isSome ∧ payloadSize ≥ 2 then
      ⟨st, [.setVolume (dataIn.getD 0 0) (dataIn.getD 1 0)], [1]⟩
    else ⟨st, [], [0]⟩
  else if cmdID = CMD_SET_EXPRESSION then
    if st.synth.isSome ∧ payloadSize ≥ 2 then
      ⟨st, [.setExpression (dataIn.getD 0 0) (dataIn.getD 1 0)], [1]⟩
    else ⟨st, [], [0]⟩
  else if cmdID = CMD_SET_REVERB then
    if st.synth.isSome ∧ payloadSize ≥ 4 then
      ⟨st, [.setReverb (dataIn.getD 0 0) (dataIn.getD 1 0) (dataIn.getD 2 0)
        (dataIn.getD 3 0)], [1]⟩
    else ⟨st, [], [0]⟩
  else if cmdID = CMD_SET_CHORUS then
    if st.synth.isSome ∧ payloadSize ≥ 5 then
      ⟨st, [.setChorus (dataIn.getD 0 0) (dataIn.getD 1 0) (dataIn.getD 2 0)
        (dataIn.getD 3 0) (dataIn.getD 4 0)], [1]⟩
    else ⟨st, [], [0]⟩
  else if cmdID = CMD_SET_PAN then
    if st.synth.isSome ∧ payloadSize ≥ 2 then
      ⟨st, [.setPan (dataIn.getD 0 0) (dataIn.getD 1 0)], [1]⟩
    else ⟨st, [], [0]⟩
  else if cmdID = CMD_SET_EQUALIZER then
    if st.synth.isSome ∧ payloadSize ≥ 9 then
      ⟨st, [.setEqualizer (dataIn.getD 0 0) (dataIn.getD 1 0) (dataIn.getD 2 0)
        (dataIn.getD 3 0) (dataIn.getD 4 0) (dataIn.getD 5 0) (dataIn.getD 6 0)
        (dataIn.getD 7 0) (dataIn.getD 8 0)], [1]⟩
    else ⟨st, [], [0]⟩
  else if cmdID = CMD_SET_TUNING then
    if st.synth.isSome ∧ payloadSize ≥ 3 then
      ⟨st, [.setTuning (dataIn.getD 0 0) (dataIn.getD 1 0) (dataIn.getD 2 0)], [1]⟩
    else ⟨st, [], [0]⟩
  else if cmdID = CMD_SET_VIBRATE then
    if st.synth.isSome ∧ payloadSize ≥ 4 then
      ⟨st, [.setVibrate (dataIn.getD 0 0) (dataIn.getD 1 0) (dataIn.getD 2 0)
        (dataIn.getD 3 0)], [1]⟩
    else ⟨st, [], [0]⟩
  else if cmdID = CMD_SET_TVF then
    if st.synth.isSome ∧ payloadSize ≥ 3 then
      ⟨st, [.setTvf (dataIn.getD 0 0) (dataIn.getD 1 0) (dataIn.getD 2 0)], [1]⟩
    else ⟨st, [], [0]⟩
  else if cmdID = CMD_SET_ENVELOPE then
    if st.synth.isSome ∧ payloadSize ≥ 4 then
      ⟨st, [.setEnvelope (dataIn.getD 0 0) (dataIn.getD 1 0) (dataIn.getD 2 0)
        (dataIn.getD 3 0)], [1]⟩
    else ⟨st, [], [0]⟩
  else if cmdID = CMD_SET_MOD_WHEEL then
    if st.synth.isSome ∧ payloadSize ≥ 8 then
      ⟨st, [.setModWheel (dataIn.getD 0 0) (dataIn.getD 1 0) (dataIn.getD 2 0)
        (dataIn.getD 3 0) (dataIn.getD 4 0) (dataIn.getD 5 0) (dataIn.getD 6 0)
        (dataIn.getD 7 0)], [1]⟩
    else ⟨st, [], [0]⟩
  else if cmdID = CMD_SET_ALL_DRUMS then
    if st.synth.isSome then
      ⟨st, [.setAllInstrumentDrums], [1]⟩
    else ⟨st, [], [0]⟩
  else if cmdID = CMD_RESET then
    if st.synth.isSome then
      ⟨st, [.reset], [1]⟩
    else ⟨st, [], [0]⟩
  else
    ⟨st, [], [0]⟩

/-- The minimum payload length each recognized command's `payloadSize ≥ n`
guard requires before it calls the device (`CMD_BEGIN`, `CMD_SET_ALL_DRUMS`
and `CMD_RESET` have no length guard). -/
def minPayload (cmdID : Nat) : Nat :=
  if cmdID = CMD_BEGIN then 0
  else if cmdID = CMD_SET_INSTRUMENT then 3
  else if cmdID = CMD_SET_NOTE_ON then 3
  else if cmdID = CMD_SET_NOTE_OFF then 3
  else if cmdID = CMD_SET_ALL_NOTE_OFF then 1
  else if cmdID = CMD_SET_PITCH_BEND then 3
  else if cmdID = CMD_SET_PITCH_BEND_RANGE then 2
  else if cmdID = CMD_SET_MASTER_VOLUME then 1
  else if cmdID = CMD_SET_CHANNEL_VOLUME then 2
  else if cmdID = CMD_SET_EXPRESSION then 2
  else if cmdID = CMD_SET_REVERB then 4
  else if cmdID = CMD_SET_CHORUS then 5
  else if cmdID = CMD_SET_PAN then 2
  else if cmdID = CMD_SET_EQUALIZER then 9
  else if cmdID = CMD_SET_TUNING then 3
  else if cmdID = CMD_SET_VIBRATE then 4
  else if cmdID = CMD_SET_TVF then 3
  else if cmdID = CMD_SET_ENVELOPE then 4
  else if cmdID = CMD_SET_MOD_WHEEL then 8
  else 0


/-! Unfolding lemmas, one per `case` of the `switch`, proved definitionally. -/

/-- The `CMD_BEGIN` case of `commandHandler`, unfolded. -/
theorem ch_begin (st : DispatcherState) (dataIn : List Byte) :
    commandHandler st CMD_BEGIN dataIn =
      ⟨if st.synth = none then ⟨some st.nextHandle, st.nextHandle + 1⟩ else st,
       [.begin
          (if dataIn.length > 3 then (dataIn.getD 2 0).val ||| ((dataIn.getD 3 0).val <<< 8)
           else 31250)
          (if dataIn.length > 0 then dataIn.getD 0 0 else 16)
          (if dataIn.length > 1 then dataIn.getD 1 0 else 17)], [1]⟩ := rfl

/-- The `CMD_SET_INSTRUMENT` case of `commandHandler`, unfolded. -/
theorem ch_setInstrument (st : DispatcherState) (dataIn : List Byte) :
    commandHandler st CMD_SET_INSTRUMENT dataIn =
      if st.synth.isSome ∧ dataIn.length ≥ 3 then
        ⟨st, [.setInstrument (dataIn.getD 0 0) (dataIn.getD 1 0) (dataIn.getD 2 0)], [1]⟩
      else ⟨st, [], [0]⟩ := rfl

/-- The `CMD_SET_NOTE_ON` case of `commandHandler`, unfolded. -/
theorem ch_setNoteOn (st : DispatcherState) (dataIn : List Byte) :
    commandHandler st CMD_SET_NOTE_ON dataIn =
      if st.synth.isSome ∧ dataIn.length ≥ 3 then
        ⟨st, [.setNoteOn (dataIn.getD 0 0) (dataIn.getD 1 0) (dataIn.getD 2 0)], [1]⟩
      else ⟨st, [], [0]⟩ := rfl

/-- The `CMD_SET_NOTE_OFF` case of `commandHandler`, unfolded. -/
theorem ch_setNoteOff (st : DispatcherState) (dataIn : List Byte) :
    commandHandler st CMD_SET_NOTE_OFF dataIn =
      if st.synth.isSome ∧ dataIn.length ≥ 3 then
        ⟨st, [.setNoteOff (dataIn.getD 0 0) (dataIn.getD 1 0) (dataIn.getD 2 0)], [1]⟩
      else ⟨st, [], [0]⟩ := rfl

/-- The `CMD_SET_ALL_NOTE_OFF` case of `commandHandler`, unfolded. -/
theorem ch_setAllNoteOff (st : DispatcherState) (dataIn : List Byte) :
    commandHandler st CMD_SET_ALL_NOTE_OFF dataIn =
      if st.synth.isSome ∧ dataIn.length ≥ 1 then
        ⟨st, [.setAllNotesOff (dataIn.getD 0 0)], [1]⟩
      else ⟨st, [], [0]⟩ := rfl

/-- The `CMD_SET_PITCH_BEND` case of `commandHandler`, unfolded. -/
theorem ch_setPitchBend (st : DispatcherState) (dataIn : List Byte) :
    commandHandler st CMD_SET_PITCH_BEND dataIn =
      if st.synth.isSome ∧ dataIn.length ≥ 3 then
        ⟨st, [.setPitchBend (dataIn.getD 0 0) (toInt16 ((dataIn.getD 1 0).val ||| ((dataIn.getD 2 0).val <<< 8)))], [1]⟩
      else ⟨st, [], [0]⟩ := rfl

/-- The `CMD_SET_PITCH_BEND_RANGE` case of `commandHandler`, unfolded. -/
theorem ch_setPitchBendRange (st : DispatcherState) (dataIn : List Byte) :
    commandHandler st CMD_SET_PITCH_BEND_RANGE dataIn =
      if st.synth.isSome ∧ dataIn.length ≥ 2 then
        ⟨st, [.setPitchBendRange (dataIn.getD 0 0) (dataIn.getD 1 0)], [1]⟩
      else ⟨st, [], [0]⟩ := rfl

/-- The `CMD_SET_MASTER_VOLUME` case of `commandHandler`, unfolded. -/
theorem ch_setMasterVolume (st : DispatcherState) (dataIn : List Byte) :
    commandHandler st CMD_SET_MASTER_VOLUME dataIn =
      if st.synth.isSome ∧ dataIn.length ≥ 1 then
        ⟨st, [.setMasterVolume (dataIn.getD 0 0)], [1]⟩
      else ⟨st, [], [0]⟩ := rfl

/-- The `CMD_SET_CHANNEL_VOLUME` case of `commandHandler`, unfolded. -/
theorem ch_setChannelVolume (st : DispatcherState) (dataIn : List Byte) :
    commandHandler st CMD_SET_CHANNEL_VOLUME dataIn =
      if st.synth.isSome ∧ dataIn.length ≥ 2 then
        ⟨st, [.setVolume (dataIn.getD 0 0) (dataIn.getD 1 0)], [1]⟩
      else ⟨st, [], [0]⟩ := rfl

/-- The `CMD_SET_EXPRESSION` case of `commandHandler`, unfolded. -/
theorem ch_setExpression (st : DispatcherState) (dataIn : List Byte) :
    commandHandler st CMD_SET_EXPRESSION dataIn =
      if st.synth.isSome ∧ dataIn.length ≥ 2 then
        ⟨st, [.setExpression (dataIn.getD 0 0) (dataIn.getD 1 0)], [1]⟩
      else ⟨st, [], [0]⟩ := rfl

/-- The `CMD_SET_REVERB` case of `commandHandler`, unfolded. -/
theorem ch_setReverb (st : DispatcherState) (dataIn : List Byte) :
    commandHandler st CMD_SET_REVERB dataIn =
      if st.synth.isSome ∧ dataIn.length ≥ 4 then
        ⟨st, [.setReverb (dataIn.getD 0 0) (dataIn.getD 1 0) (dataIn.getD 2 0) (dataIn.getD 3 0)], [1]⟩
      else ⟨st, [], [0]⟩ := rfl

/-- The `CMD_SET_CHORUS` case of `commandHandler`, unfolded. -/
theorem ch_setChorus (st : DispatcherState) (dataIn : List Byte) :
    commandHandler st CMD_SET_CHORUS dataIn =
      if st.synth.isSome ∧ dataIn.length ≥ 5 then
        ⟨st, [.setChorus (dataIn.getD 0 0) (dataIn.getD 1 0) (dataIn.getD 2 0) (dataIn.getD 3 0) (dataIn.getD 4 0)], [1]⟩
      else ⟨st, [], [0]⟩ := rfl

/-- The `CMD_SET_PAN` case of `commandHandler`, unfolded. -/
theorem ch_setPan (st : DispatcherState) (dataIn : List Byte) :
    commandHandler st CMD_SET_PAN dataIn =
      if st.synth.isSome ∧ dataIn.length ≥ 2 then
        ⟨st, [.setPan (dataIn.getD 0 0) (dataIn.getD 1 0)], [1]⟩
      else ⟨st, [], [0]⟩ := rfl

/-- The `CMD_SET_EQUALIZER` case of `commandHandler`, unfolded. -/
theorem ch_setEqualizer (st : DispatcherState) (dataIn : List Byte) :
    commandHandler st CMD_SET_EQUALIZER dataIn =
      if st.synth.isSome ∧ dataIn.length ≥ 9 then
        ⟨st, [.setEqualizer (dataIn.getD 0 0) (dataIn.getD 1 0) (dataIn.getD 2 0) (dataIn.getD 3 0) (dataIn.getD 4 0) (dataIn.getD 5 0) (dataIn.getD 6 0) (dataIn.getD 7 0) (dataIn.getD 8 0)], [1]⟩
      else ⟨st, [], [0]⟩ := rfl

/-- The `CMD_SET_TUNING` case of `commandHandler`, unfolded. -/
theorem ch_setTuning (st : DispatcherState) (dataIn : List Byte) :
    commandHandler st CMD_SET_TUNING dataIn =
      if st.synth.isSome ∧ dataIn.length ≥ 3 then
        ⟨st, [.setTuning (dataIn.getD 0 0) (dataIn.getD 1 0) (dataIn.getD 2 0)], [1]⟩
      else ⟨st, [], [0]⟩ := rfl

/-- The `CMD_SET_VIBRATE` case of `commandHandler`, unfolded. -/
theorem ch_setVibrate (st : DispatcherState) (dataIn : List Byte) :
    commandHandler st CMD_SET_VIBRATE dataIn =
      if st.synth.isSome ∧ dataIn.length ≥ 4 then
        ⟨st, [.setVibrate (dataIn.getD 0 0) (dataIn.getD 1 0) (dataIn.getD 2 0) (dataIn.getD 3 0)], [1]⟩
      else ⟨st, [], [0]⟩ := rfl

/-- The `CMD_SET_TVF` case of `commandHandler`, unfolded. -/
theorem ch_setTvf (st : DispatcherState) (dataIn : List Byte) :
    commandHandler st CMD_SET_TVF dataIn =
      if st.synth.isSome ∧ dataIn.length ≥ 3 then
        ⟨st, [.setTvf (dataIn.getD 0 0) (dataIn.getD 1 0) (dataIn.getD 2 0)], [1]⟩
      else ⟨st, [], [0]⟩ := rfl

/-- The `CMD_SET_ENVELOPE` case of `commandHandler`, unfolded. -/
theorem ch_setEnvelope (st : DispatcherState) (dataIn : List Byte) :
    commandHandler st CMD_SET_ENVELOPE dataIn =
      if st.synth.isSome ∧ dataIn.length ≥ 4 then
        ⟨st, [.setEnvelope (dataIn.getD 0 0) (dataIn.getD 1 0) (dataIn.getD 2 0) (dataIn.getD 3 0)], [1]⟩
      else ⟨st, [], [0]⟩ := rfl

/-- The `CMD_SET_MOD_WHEEL` case of `commandHandler`, unfolded. -/
theorem ch_setModWheel (st : DispatcherState) (dataIn : List Byte) :
    commandHandler st CMD_SET_MOD_WHEEL dataIn =
      if st.synth.isSome ∧ dataIn.length ≥ 8 then
        ⟨st, [.setModWheel (dataIn.getD 0 0) (dataIn.getD 1 0) (dataIn.getD 2 0) (dataIn.getD 3 0) (dataIn.getD 4 0) (dataIn.getD 5 0) (dataIn.getD 6 0) (dataIn.getD 7 0)], [1]⟩
      else ⟨st, [], [0]⟩ := rfl

/-- The `CMD_SET_ALL_DRUMS` case of `commandHandler`, unfolded. -/
theorem ch_setAllDrums (st : DispatcherState) (dataIn : List Byte) :
    commandHandler st CMD_SET_ALL_DRUMS dataIn =
      if st.synth.isSome then ⟨st, [.setAllInstrumentDrums], [1]⟩
      else ⟨st, [], [0]⟩ := rfl

/-- The `CMD_RESET` case of `commandHandler`, unfolded. -/
theorem ch_reset (st : DispatcherState) (dataIn : List Byte) :
    commandHandler st CMD_RESET dataIn =
      if st.synth.isSome then ⟨st, [.reset], [1]⟩
      else ⟨st, [], [0]⟩ := rfl


/-- The `default` case of the `switch`: a command id outside `0x01`–`0x15`
falls through to `responseData[0] = 0`. -/
theorem ch_unknown (st : DispatcherState) (dataIn : List Byte) (cmdID : Nat)
    (hk : cmdID = 0 ∨ 21 < cmdID) :
    commandHandler st cmdID dataIn = ⟨st, [], [0]⟩ := by
  have h1 : cmdID ≠ 0x01 := by omega
  have h2 : cmdID ≠ 0x02 := by omega
  have h3 : cmdID ≠ 0x03 := by omega
  have h4 : cmdID ≠ 0x04 := by omega
  have h5 : cmdID ≠ 0x05 := by omega
  have h6 : cmdID ≠ 0x06 := by omega
  have h7 : cmdID ≠ 0x07 := by omega
  have h8 : cmdID ≠ 0x08 := by omega
  have h9 : cmdID ≠ 0x09 := by omega
  have h10 : cmdID ≠ 0x0A := by omega
  have h11 : cmdID ≠ 0x0B := by omega
  have h12 : cmdID ≠ 0x0C := by omega
  have h13 : cmdID ≠ 0x0D := by omega
  have h14 : cmdID ≠ 0x0E := by omega
  have h15 : cmdID ≠ 0x0F := by omega
  have h16 : cmdID ≠ 0x10 := by omega
  have h17 : cmdID ≠ 0x11 := by omega
  have h18 : cmdID ≠ 0x12 := by omega
  have h19 : cmdID ≠ 0x13 := by omega
  have h20 : cmdID ≠ 0x14 := by omega
  have h21 : cmdID ≠ 0x15 := by omega
  unfold commandHandler
  simp [h1, h2, h3, h4, h5, h6, h7, h8, h9, h10, h11, h12, h13, h14, h15,
    h16, h17, h18, h19, h20, h21]

/-- C1: any command other than `CMD_BEGIN` dispatched while `synth` is still
null answers `ack = 0` and performs no device call. -/
theorem uninitializedRejectsCommand (cmdID : Nat) (dataIn : List Byte)
    (st : DispatcherState) (hs : st.synth = none) (hc : cmdID ≠ CMD_BEGIN) :
    (commandHandler st cmdID dataIn).response = [0] ∧
    (commandHandler st cmdID dataIn).calls = [] := by
  unfold commandHandler
  rw [hs]
  simp [hc]

theorem uninitializedRejectsCommand_witness :
    (commandHandler initialState CMD_SET_NOTE_ON [0, 60, 100]).response = [0] ∧
    (commandHandler initialState CMD_SET_NOTE_ON [0, 60, 100]).calls = [] :=
  uninitializedRejectsCommand CMD_SET_NOTE_ON [0, 60, 100] initialState rfl (by decide)

/-- C2: a recognized command whose payload is shorter than the length its
guard checks answers `ack = 0` and performs no device call, in any state. -/
theorem shortPayloadRejected (cmdID : Nat) (dataIn : List Byte)
    (st : DispatcherState) (hlo : 1 ≤ cmdID) (hhi : cmdID ≤ 21)
    (hlen : dataIn.length < minPayload cmdID) :
    (commandHandler st cmdID dataIn).response = [0] ∧
    (commandHandler st cmdID dataIn).calls = [] := by
  interval_cases cmdID
  · exact absurd hlen (Nat.not_lt_zero _)
  · have h : dataIn.length < 3 := hlen
    rw [ch_setInstrument, if_neg (by rintro ⟨-, hg⟩ ; omega)]
    exact ⟨rfl, rfl⟩
  · have h : dataIn.length < 3 := hlen
    rw [ch_setNoteOn, if_neg (by rintro ⟨-, hg⟩ ; omega)]
    exact ⟨rfl, rfl⟩
  · have h : dataIn.length < 3 := hlen
    rw [ch_setNoteOff, if_neg (by rintro ⟨-, hg⟩ ; omega)]
    exact ⟨rfl, rfl⟩
  · have h : dataIn.length < 1 := hlen
    rw [ch_setAllNoteOff, if_neg (by rintro ⟨-, hg⟩ ; omega)]
    exact ⟨rfl, rfl⟩
  · have h : dataIn.length < 3 := hlen
    rw [ch_setPitchBend, if_neg (by rintro ⟨-, hg⟩ ; omega)]
    exact ⟨rfl, rfl⟩
  · have h : dataIn.length < 2 := hlen
    rw [ch_setPitchBendRange, if_neg (by rintro ⟨-, hg⟩ ; omega)]
    exact ⟨rfl, rfl⟩
  · have h : dataIn.length < 1 := hlen
    rw [ch_setMasterVolume, if_neg (by rintro ⟨-, hg⟩ ; omega)]
    exact ⟨rfl, rfl⟩
  · have h : dataIn.length < 2 := hlen
    rw [ch_setChannelVolume, if_neg (by rintro ⟨-, hg⟩ ; omega)]
    exact ⟨rfl, rfl⟩
  · have h : dataIn.length < 2 := hlen
    rw [ch_setExpression, if_neg (by rintro ⟨-, hg⟩ ; omega)]
    exact ⟨rfl, rfl⟩
  · have h : dataIn.length < 4 := hlen
    rw [ch_setReverb, if_neg (by rintro ⟨-, hg⟩ ; omega)]
    exact ⟨rfl, rfl⟩
  · have h : dataIn.length < 5 := hlen
    rw [ch_setChorus, if_neg (by rintro ⟨-, hg⟩ ; omega)]
    exact ⟨rfl, rfl⟩
  · have h : dataIn.length < 2 := hlen
    rw [ch_setPan, if_neg (by rintro ⟨-, hg⟩ ; omega)]
    exact ⟨rfl, rfl⟩
  · have h : dataIn.length < 9 := hlen
    rw [ch_setEqualizer, if_neg (by rintro ⟨-, hg⟩ ; omega)]
    exact ⟨rfl, rfl⟩
  · have h : dataIn.length < 3 := hlen
    rw [ch_setTuning, if_neg (by rintro ⟨-, hg⟩ ; omega)]
    exact ⟨rfl, rfl⟩
  · have h : dataIn.length < 4 := hlen
    rw [ch_setVibrate, if_neg (by rintro ⟨-, hg⟩ ; omega)]
    exact ⟨rfl, rfl⟩
  · have h : dataIn.length < 3 := hlen
    rw [ch_setTvf, if_neg (by rintro ⟨-, hg⟩ ; omega)]
    exact ⟨rfl, rfl⟩
  · have h : dataIn.length < 4 := hlen
    rw [ch_setEnvelope, if_neg (by rintro ⟨-, hg⟩ ; omega)]
    exact ⟨rfl, rfl⟩
  · have h : dataIn.length < 8 := hlen
    rw [ch_setModWheel, if_neg (by rintro ⟨-, hg⟩ ; omega)]
    exact ⟨rfl, rfl⟩
  · exact absurd hlen (Nat.not_lt_zero _)
  · exact absurd hlen (Nat.not_lt_zero _)

theorem shortPayloadRejected_witness :
    1 ≤ CMD_SET_INSTRUMENT ∧ CMD_SET_INSTRUMENT ≤ 21 ∧
    ([] : List Byte).length < minPayload CMD_SET_INSTRUMENT ∧
    (commandHandler ⟨some 0, 1⟩ CMD_SET_INSTRUMENT []).response = [0] ∧
    (commandHandler ⟨some 0, 1⟩ CMD_SET_INSTRUMENT []).calls = [] :=
  ⟨by decide, by decide, by decide,
   shortPayloadRejected CMD_SET_INSTRUMENT [] ⟨some 0, 1⟩ (by decide) (by decide) (by decide)⟩

/-- C9: every dispatch produces exactly one meaningful response byte, and it
is `0` or `1`. -/
theorem responseSingleBinaryByte (st : DispatcherState) (cmdID : Nat)
    (dataIn : List Byte) :
    (commandHandler st cmdID dataIn).response = [0] ∨
    (commandHandler st cmdID dataIn).response = [1] := by
  rcases Nat.lt_or_ge 21 cmdID with h | h
  · rw [ch_unknown st dataIn cmdID (Or.inr h)]
    exact Or.inl rfl
  · rcases Nat.eq_zero_or_pos cmdID with h0 | h0
    · rw [ch_unknown st dataIn cmdID (Or.inl h0)]
      exact Or.inl rfl
    · interval_cases cmdID <;>
        simp only [ch_begin, ch_setInstrument, ch_setNoteOn, ch_setNoteOff,
          ch_setAllNoteOff, ch_setPitchBend, ch_setPitchBendRange,
          ch_setMasterVolume, ch_setChannelVolume, ch_setExpression,
          ch_setReverb, ch_setChorus, ch_setPan, ch_setEqualizer, ch_setTuning,
          ch_setVibrate, ch_setTvf, ch_setEnvelope, ch_setModWheel,
          ch_setAllDrums, ch_reset] <;>
        (try split_ifs) <;> simp


/-- C3 counterexample: on an initialized dispatcher, Note Off with the
2-byte payload `[0, 60]` answers `ack = 0` (not `1`) and makes no device
call, because the case guard requires `payloadSize >= 3`. -/
theorem noteOffTwoByteRejected :
    (commandHandler ⟨some 0, 1⟩ CMD_SET_NOTE_OFF [0, 60]).response = [0] ∧
    (commandHandler ⟨some 0, 1⟩ CMD_SET_NOTE_OFF [0, 60]).calls = [] := by
  decide

/-- C3 amended: Note Off requires a full 3-byte payload; on an initialized
dispatcher a 2-byte payload `[channel, pitch]` answers `ack = 0` with no
device call, while `[channel, pitch, velocity]` answers `ack = 1` and
forwards all three bytes to `setNoteOff`. -/
theorem noteOffRequiresThreeBytes (st : DispatcherState) (ch pitch vel : Byte)
    (hs : st.synth.isSome) :
    (commandHandler st CMD_SET_NOTE_OFF [ch, pitch]).response = [0] ∧
    (commandHandler st CMD_SET_NOTE_OFF [ch, pitch]).calls = [] ∧
    (commandHandler st CMD_SET_NOTE_OFF [ch, pitch, vel]).response = [1] ∧
    (commandHandler st CMD_SET_NOTE_OFF [ch, pitch, vel]).calls =
      [.setNoteOff ch pitch vel] := by
  simp [ch_setNoteOff, hs]

theorem noteOffRequiresThreeBytes_witness :
    (⟨some 0, 1⟩ : DispatcherState).synth.isSome = true ∧
    (commandHandler ⟨some 0, 1⟩ CMD_SET_NOTE_OFF [0, 60]).response = [0] ∧
    (commandHandler ⟨some 0, 1⟩ CMD_SET_NOTE_OFF [0, 60]).calls = [] ∧
    (commandHandler ⟨some 0, 1⟩ CMD_SET_NOTE_OFF [0, 60, 0]).response = [1] ∧
    (commandHandler ⟨some 0, 1⟩ CMD_SET_NOTE_OFF [0, 60, 0]).calls =
      [.setNoteOff 0 60 0] :=
  ⟨rfl, noteOffRequiresThreeBytes ⟨some 0, 1⟩ 0 60 0 rfl⟩


/-- C4: the pitch-bend field is decoded little-endian as a two's-complement
signed 16-bit value: on an initialized dispatcher, `[ch, 0x00, 0x80]` calls
`setPitchBend ch (-32768)` and `[ch, 0xFF, 0x7F]` calls
`setPitchBend ch 32767`, both with `ack = 1`. -/
theorem pitchBendDecodesSignedLE (st : DispatcherState) (ch : Byte)
    (hs : st.synth.isSome) :
    (commandHandler st CMD_SET_PITCH_BEND [ch, 0x00, 0x80]).response = [1] ∧
    (commandHandler st CMD_SET_PITCH_BEND [ch, 0x00, 0x80]).calls =
      [.setPitchBend ch (-32768)] ∧
    (commandHandler st CMD_SET_PITCH_BEND [ch, 0xFF, 0x7F]).response = [1] ∧
    (commandHandler st CMD_SET_PITCH_BEND [ch, 0xFF, 0x7F]).calls =
      [.setPitchBend ch 32767] := by
  simp [ch_setPitchBend, hs]
  decide

theorem pitchBendDecodesSignedLE_witness :
    (⟨some 0, 1⟩ : DispatcherState).synth.isSome = true ∧
    (commandHandler ⟨some 0, 1⟩ CMD_SET_PITCH_BEND [0, 0x00, 0x80]).calls =
      [.setPitchBend 0 (-32768)] ∧
    (commandHandler ⟨some 0, 1⟩ CMD_SET_PITCH_BEND [0, 0xFF, 0x7F]).calls =
      [.setPitchBend 0 32767] :=
  ⟨rfl, (pitchBendDecodesSignedLE ⟨some 0, 1⟩ 0 rfl).2.1,
   (pitchBendDecodesSignedLE ⟨some 0, 1⟩ 0 rfl).2.2.2⟩


/-- C5: `CMD_BEGIN` decodes payload bytes 2-3 as a little-endian unsigned
16-bit baud rate: `[rx, tx, 0x3E, 0x7A]` opens the device at baud
`0x7A3E = 31294`, and a payload without bytes 2-3 defaults to 31250. -/
theorem beginBaudDecode (st : DispatcherState) (rx tx : Byte) :
    (commandHandler st CMD_BEGIN [rx, tx, 0x3E, 0x7A]).calls =
      [.begin 31294 rx tx] ∧
    (∀ dataIn : List Byte, dataIn.length ≤ 2 →
      ∃ r t, (commandHandler st CMD_BEGIN dataIn).calls = [.begin 31250 r t]) := by
  constructor
  · rw [ch_begin]
    have hb : ((0x3E : Byte)).val ||| (((0x7A : Byte)).val <<< 8) = 31294 := by decide
    simp [hb]
  · intro dataIn hlen
    refine ⟨if dataIn.length > 0 then dataIn.getD 0 0 else 16,
            if dataIn.length > 1 then dataIn.getD 1 0 else 17, ?_⟩
    rw [ch_begin]
    have h3 : ¬ dataIn.length > 3 := by omega
    simp [h3]

theorem beginBaudDecode_witness :
    (commandHandler initialState CMD_BEGIN [16, 17, 0x3E, 0x7A]).calls =
      [.begin 31294 16 17] ∧
    ∃ r t, (commandHandler initialState CMD_BEGIN [16, 17]).calls =
      [.begin 31250 r t] :=
  ⟨(beginBaudDecode initialState 16 17).1,
   (beginBaudDecode initialState 16 17).2 [16, 17] (by decide)⟩

/-- C6: `CMD_BEGIN` never fails: for any prior state and any payload it
answers `ack = 1` and makes exactly one `begin` call on the device, opening
the UART at the baud decoded little-endian from payload bytes 2-3 (default
31250) and the RX/TX pins from payload bytes 0-1 (defaults 16 and 17); the
handle afterwards is the old one if it existed, else a freshly allocated
one. -/
theorem beginNeverFails (st : DispatcherState) (dataIn : List Byte) :
    (commandHandler st CMD_BEGIN dataIn).response = [1] ∧
    (commandHandler st CMD_BEGIN dataIn).calls =
      [.begin
        (if dataIn.length > 3 then (dataIn.getD 2 0).val ||| ((dataIn.getD 3 0).val <<< 8)
         else 31250)
        (if dataIn.length > 0 then dataIn.getD 0 0 else 16)
        (if dataIn.length > 1 then dataIn.getD 1 0 else 17)] ∧
    (commandHandler st CMD_BEGIN dataIn).state =
      (if st.synth = none then ⟨some st.nextHandle, st.nextHandle + 1⟩ else st) := by
  rw [ch_begin]
  exact ⟨rfl, rfl, rfl⟩

/-- C7: a command id outside the defined set `0x01`–`0x15` answers
`ack = 0` and performs no device call, in any state and for any payload. -/
theorem unknownCommandRejected (st : DispatcherState) (cmdID : Nat)
    (dataIn : List Byte) (hk : cmdID = 0 ∨ 21 < cmdID) :
    (commandHandler st cmdID dataIn).response = [0] ∧
    (commandHandler st cmdID dataIn).calls = [] := by
  rw [ch_unknown st dataIn cmdID hk]
  exact ⟨rfl, rfl⟩

theorem unknownCommandRejected_witness :
    ((0x16 : Nat) = 0 ∨ 21 < (0x16 : Nat)) ∧
    (commandHandler ⟨some 0, 1⟩ 0x16 [0, 1, 2]).response = [0] ∧
    (commandHandler ⟨some 0, 1⟩ 0x16 [0, 1, 2]).calls = [] :=
  ⟨Or.inr (by decide),
   unknownCommandRejected ⟨some 0, 1⟩ 0x16 [0, 1, 2] (Or.inr (by decide))⟩

/-- C8: All Notes Off is idempotent: issued twice with the same 1-byte
channel payload on an initialized dispatcher, both dispatches answer
`ack = 1` and the state after the second equals the state after the
first. -/
theorem allNotesOffIdempotent (st : DispatcherState) (ch : Byte)
    (hs : st.synth.isSome) :
    (commandHandler st CMD_SET_ALL_NOTE_OFF [ch]).response = [1] ∧
    (commandHandler (commandHandler st CMD_SET_ALL_NOTE_OFF [ch]).state
      CMD_SET_ALL_NOTE_OFF [ch]).response = [1] ∧
    (commandHandler (commandHandler st CMD_SET_ALL_NOTE_OFF [ch]).state
      CMD_SET_ALL_NOTE_OFF [ch]).state =
      (commandHandler st CMD_SET_ALL_NOTE_OFF [ch]).state := by
  have h1 : commandHandler st CMD_SET_ALL_NOTE_OFF [ch] =
      ⟨st, [.setAllNotesOff ch], [1]⟩ := by
    rw [ch_setAllNoteOff, if_pos ⟨hs, by simp⟩]
    rfl
  simp [h1]

theorem allNotesOffIdempotent_witness :
    (⟨some 0, 1⟩ : DispatcherState).synth.isSome = true ∧
    (commandHandler ⟨some 0, 1⟩ CMD_SET_ALL_NOTE_OFF [0]).response = [1] ∧
    (commandHandler (commandHandler ⟨some 0, 1⟩ CMD_SET_ALL_NOTE_OFF [0]).state
      CMD_SET_ALL_NOTE_OFF [0]).response = [1] ∧
    (commandHandler (commandHandler ⟨some 0, 1⟩ CMD_SET_ALL_NOTE_OFF [0]).state
      CMD_SET_ALL_NOTE_OFF [0]).state =
      (commandHandler ⟨some 0, 1⟩ CMD_SET_ALL_NOTE_OFF [0]).state :=
  ⟨rfl, allNotesOffIdempotent ⟨some 0, 1⟩ 0 rfl⟩

/-- C10: the `synth` handle is written only by `CMD_BEGIN`: every other
command leaves the whole state unchanged; once the handle is non-null, any
dispatch (a second `CMD_BEGIN` included) leaves the state unchanged, so the
handle stays the same allocation and stays non-null. -/
theorem handleOnlyWrittenByBegin (st : DispatcherState) (cmdID : Nat)
    (dataIn : List Byte) :
    (cmdID ≠ CMD_BEGIN → (commandHandler st cmdID dataIn).state = st) ∧
    (st.synth.isSome → (commandHandler st cmdID dataIn).state = st) ∧
    (st.synth.isSome → (commandHandler st cmdID dataIn).state.synth.isSome) := by
  have hA : cmdID ≠ CMD_BEGIN → (commandHandler st cmdID dataIn).state = st := by
    intro hc
    rcases Nat.lt_or_ge 21 cmdID with h | h
    · rw [ch_unknown st dataIn cmdID (Or.inr h)]
    · rcases Nat.eq_zero_or_pos cmdID with h0 | h0
      · rw [ch_unknown st dataIn cmdID (Or.inl h0)]
      · interval_cases cmdID <;>
          first
            | exact absurd rfl hc
            | (simp only [ch_setInstrument, ch_setNoteOn, ch_setNoteOff,
                ch_setAllNoteOff, ch_setPitchBend, ch_setPitchBendRange,
                ch_setMasterVolume, ch_setChannelVolume, ch_setExpression,
                ch_setReverb, ch_setChorus, ch_setPan, ch_setEqualizer,
                ch_setTuning, ch_setVibrate, ch_setTvf, ch_setEnvelope,
                ch_setModWheel, ch_setAllDrums, ch_reset]
               split_ifs <;> rfl)
  have hB : st.synth.isSome → (commandHandler st cmdID dataIn).state = st := by
    intro hs
    by_cases hc : cmdID = CMD_BEGIN
    · subst hc
      rw [ch_begin]
      have hne : ¬ st.synth = none := by
        intro h
        rw [h] at hs
        simp at hs
      simp [hne]
    · exact hA hc
  refine ⟨hA, hB, fun hs => ?_⟩
  rw [hB hs]
  exact hs

theorem handleOnlyWrittenByBegin_witness :
    ((commandHandler ⟨some 5, 6⟩ CMD_RESET []).state = ⟨some 5, 6⟩) ∧
    ((commandHandler ⟨some 5, 6⟩ CMD_BEGIN [16, 17]).state = ⟨some 5, 6⟩) ∧
    ((commandHandler ⟨some 5, 6⟩ CMD_BEGIN [16, 17]).state.synth.isSome) :=
  ⟨(handleOnlyWrittenByBegin ⟨some 5, 6⟩ CMD_RESET []).1 (by decide),
   (handleOnlyWrittenByBegin ⟨some 5, 6⟩ CMD_BEGIN [16, 17]).2.1 rfl,
   (handleOnlyWrittenByBegin ⟨some 5, 6⟩ CMD_BEGIN [16, 17]).2.2 rfl⟩

end M5UnitML
